import Mathlib

/-!
Verification of the Instra analytics engine (`Xyrax/analytics/engine.py`
and its caller `Xyrax/analytics/views.py`).

Modelling conventions:
* The engine passes Python dicts around and reads them with
  `.get(key, default)`. The set of keys it ever reads is fixed
  (`'likes'`, …, `'reposts'`, `'predicted_impressions'`,
  `'viral_score'`), so a dict is modelled as a record of
  `Option ℚ` fields (`none` = key absent), with `lookup` selecting a
  key's binding and `dgetD d k v` embedding `d.get(k, v)`.
* Python numbers (ints and floats) are modelled as exact rationals `ℚ`.
  Decimal literals such as `1.08` are exact in `ℚ` (`27/25`); every
  concrete computation settled here is far from any binary-float
  rounding boundary.
* Python `int(x)` truncates toward zero: `pyInt`.
* Python `round(x, n)` rounds half to even on the `10 ^ n` grid: `pyRound`.
-/

namespace Instra

/-- Python `int(x)`: truncation toward zero. -/
def pyInt (q : ℚ) : ℤ :=
  if q < 0 then -(⌊-q⌋) else ⌊q⌋

/-- Round to the nearest integer, ties to even (Python `round(x)`). -/
def rhalfEven (q : ℚ) : ℤ :=
  let f := ⌊q⌋
  let r := q - (f : ℚ)
  if r < 1/2 then f
  else if 1/2 < r then f + 1
  else if f % 2 = 0 then f else f + 1

/-- Python `round(x, n)`: round half to even at the `10 ^ n` grid. -/
def pyRound (n : ℕ) (q : ℚ) : ℚ :=
  (rhalfEven (q * 10 ^ n) : ℚ) / 10 ^ n

/-- The dict keys the engine reads with `.get`. -/
inductive Key where
  | likes | saves | comments | shares | follows
  | profile_visits | caption_length | hashtags | reposts
  | predicted_impressions | viral_score
deriving DecidableEq

/-- A Python dict of numbers over the engine's fixed key set:
`none` models an absent key. -/
structure Dict where
  likes : Option ℚ := none
  saves : Option ℚ := none
  comments : Option ℚ := none
  shares : Option ℚ := none
  follows : Option ℚ := none
  profile_visits : Option ℚ := none
  caption_length : Option ℚ := none
  hashtags : Option ℚ := none
  reposts : Option ℚ := none
  predicted_impressions : Option ℚ := none
  viral_score : Option ℚ := none
deriving DecidableEq

/-- The binding of key `k` in dict `d`, if present. -/
def lookup (d : Dict) : Key → Option ℚ
  | .likes => d.likes
  | .saves => d.saves
  | .comments => d.comments
  | .shares => d.shares
  | .follows => d.follows
  | .profile_visits => d.profile_visits
  | .caption_length => d.caption_length
  | .hashtags => d.hashtags
  | .reposts => d.reposts
  | .predicted_impressions => d.predicted_impressions
  | .viral_score => d.viral_score

/-- Embeds `d.get(k, default)`. -/
def dgetD (d : Dict) (k : Key) (default : ℚ) : ℚ :=
  (lookup d k).getD default

/-- Embeds `d.get(k, 0)` — the engine's pervasive access pattern. -/
def dget (d : Dict) (k : Key) : ℚ := dgetD d k 0

/-- Embeds the dict merge adding a predicted_impressions binding
(engine.py line 201). -/
def withPredictedImpressions (d : Dict) (v : ℚ) : Dict :=
  { d with predicted_impressions := some v }

-- ── predict_impressions (engine.py lines 12–64) ─────────────────────────────

/-- Weighted base engagement score (engine.py lines 28–36). -/
def baseScore (d : Dict) : ℚ :=
  dget d .likes * 1 +
  dget d .saves * 4.5 +
  dget d .comments * 3 +
  dget d .shares * 6 +
  dget d .follows * 5 +
  dget d .profile_visits * 0.8 +
  dget d .reposts * 5.5

/-- Caption sweet-spot multiplier (engine.py lines 39–42). -/
def captionAdjusted (d : Dict) (base : ℚ) : ℚ :=
  let captionLength := dget d .caption_length
  if 100 ≤ captionLength ∧ captionLength ≤ 220 then base * 1.08
  else if 400 < captionLength then base * 0.96
  else base

/-- Hashtag sweet-spot multiplier (engine.py lines 45–48). -/
def hashtagAdjusted (d : Dict) (base : ℚ) : ℚ :=
  let hashtags := dget d .hashtags
  if 5 ≤ hashtags ∧ hashtags ≤ 25 then base * 1.05
  else if 30 < hashtags then base * 0.97
  else base

/-- Embeds `predict_impressions(inputs, history)` (engine.py lines 12–64). -/
def predictImpressions (inputs : Dict) (history : List Dict) : ℤ :=
  let base := hashtagAdjusted inputs (captionAdjusted inputs (baseScore inputs))
  let imp0 := pyInt (base * 12.5 + 400)
  let imp1 :=
    if history.isEmpty then imp0
    else
      let histImps := (history.map fun p => dget p .predicted_impressions).filter
        (fun x => 0 < x)
      if histImps.isEmpty then imp0
      else
        let histAvg := histImps.sum / (histImps.length : ℚ)
        let savesPerLike := dget inputs .saves / max (dget inputs .likes) 1
        let scale := 1 + (savesPerLike - 0.5) * 0.4
        let calibrated := histAvg * scale
        pyInt (0.6 * (imp0 : ℚ) + 0.4 * calibrated)
  max imp1 100

/-- The spec's end-to-end example input (spec.md §8; views.py builds all
nine counter keys). -/
def exampleInputs : Dict :=
  { likes := some 500, saves := some 250, comments := some 60,
    shares := some 30, follows := some 20, profile_visits := some 100,
    caption_length := some 150, hashtags := some 15, reposts := some 2 }

-- ── compute_viral_score (engine.py lines 67–103) ────────────────────────────

/-- Embeds `compute_viral_score(inputs)` (engine.py lines 67–103). -/
def computeViralScore (d : Dict) : ℚ :=
  let likes := dget d .likes
  let saves := dget d .saves
  let comments := dget d .comments
  let shares := dget d .shares
  let follows := dget d .follows
  let profileVisits := dget d .profile_visits
  let hashtags := dget d .hashtags
  let totalEng := likes + saves + comments + shares + follows
  if totalEng = 0 then 0
  else
    let savesPerLike := saves / max likes 1
    let savesScore := min (savesPerLike * 40) 35
    let commentsScore := min (comments / max totalEng 1 * 100 * 1.5) 20
    let sharesScore := min (shares / max totalEng 1 * 100 * 2) 20
    let followScore :=
      if 0 < profileVisits then min (follows / max profileVisits 1 * 100 * 0.3) 15
      else 0
    let hashtagScore : ℚ :=
      if 10 ≤ hashtags ∧ hashtags ≤ 25 then 10
      else if 5 ≤ hashtags ∧ hashtags ≤ 30 then 7
      else 3
    let raw := savesScore + commentsScore + sharesScore + followScore + hashtagScore
    pyRound 1 (min raw 100)

-- ── compute_engagement_rate / compute_follow_rate (engine.py 106–123) ───────

/-- Embeds `compute_engagement_rate(inputs, impressions)` (engine.py
lines 106–115). -/
def computeEngagementRate (d : Dict) (impressions : ℤ) : ℚ :=
  let total := dget d .likes + dget d .saves + dget d .comments + dget d .shares
  if impressions = 0 then 0
  else pyRound 2 (total / (impressions : ℚ) * 100)

/-- Embeds `compute_follow_rate(inputs)` (engine.py lines 118–123). -/
def computeFollowRate (d : Dict) : ℚ :=
  let follows := dget d .follows
  let profileVisits := dget d .profile_visits
  if profileVisits = 0 then 0
  else pyRound 1 (follows / profileVisits * 100)

-- ── Trend analyzer (engine.py lines 175–196) ────────────────────────────────

/-- Embeds `smooth(values, window=3)` (engine.py lines 175–181): trailing moving
average rounded to 1 decimal. -/
def smooth (values : List ℚ) (window : ℕ := 3) : List ℚ :=
  (List.range values.length).map fun i =>
    let start := i + 1 - window
    let chunk := (values.drop start).take (i + 1 - start)
    pyRound 1 (chunk.sum / (chunk.length : ℚ))

/-- Mean comparison of two halves against the 5%-of-first-half-mean
threshold (engine.py lines 189–196 verbatim, factored over the two
halves). -/
def meanCompare5pct (firstHalf secondHalf : List ℚ) : String :=
  let avgFirst := firstHalf.sum / (firstHalf.length : ℚ)
  let avgSecond := secondHalf.sum / (secondHalf.length : ℚ)
  let diff := avgSecond - avgFirst
  if avgFirst * 0.05 < diff then "improving"
  else if diff < -(avgFirst * 0.05) then "declining"
  else "stable"

/-- Embeds `trend_direction(values)` (engine.py lines 184–196). The split point is
`len(values) // 2`, so on odd lengths the second half keeps the extra
element. -/
def trendDirection (values : List ℚ) : String :=
  if values.length < 2 then "stable"
  else meanCompare5pct (values.take (values.length / 2))
    (values.drop (values.length / 2))

/-- The trend classifier as C3 words it: the FIRST half receives the extra
element on odd lengths (ceiling split), then the same 5% comparison.
Stated only to compare against `trendDirection`. -/
def trendDirectionCeilSplit (values : List ℚ) : String :=
  if values.length < 2 then "stable"
  else meanCompare5pct (values.take ((values.length + 1) / 2))
    (values.drop ((values.length + 1) / 2))

-- ── Best posting times (engine.py lines 140–170) ────────────────────────────

/-- The slot catalog `POSTING_TIMES` (engine.py lines 140–151). -/
def POSTING_TIMES : List String :=
  ["Tuesday 7-9 PM", "Thursday 6-8 PM", "Wednesday 12-2 PM",
   "Sunday 8-10 PM", "Monday 8-10 AM", "Friday 9-11 AM",
   "Wednesday 7-9 AM", "Saturday 10-12 PM", "Thursday 12-2 PM",
   "Tuesday 6-8 PM"]

/-- Swap the elements at positions `i` and `j` (`x[i], x[j] = x[j], x[i]`). -/
def listSwap (l : List String) (i j : ℕ) : List String :=
  (l.set i (l.getD j "")).set j (l.getD i "")

/-- One word of the pseudo-random stream. `random.Random(seed)` is CPython's
standard-library Mersenne Twister, which is not part of this repository;
it is modelled by a deterministic 32-bit congruential word stream. Every
property proved about `get_best_times` (arity, labelling, dependence on the
seed only) is independent of which deterministic stream is used. -/
def rngNext (s : ℕ) : ℕ := (s * 1103515245 + 12345) % 4294967296

/-- Fisher–Yates loop of `random.shuffle` (CPython: for `i` from `len-1`
down to `1`, draw `j = _randbelow(i+1)` and swap positions `i` and `j`). -/
def shuffleGo : List String → ℕ → ℕ → List String
  | l, 0, _ => l
  | l, i + 1, s =>
    let s2 := rngNext s
    let j := s2 % (i + 2)
    shuffleGo (listSwap l (i + 1) j) i s2

/-- Embeds `rng.shuffle(x)` for `rng = random.Random(seed)` (engine.py
lines 162–164),
with the stream model of `rngNext`. -/
def pyShuffle (seed : ℕ) (l : List String) : List String :=
  shuffleGo l (l.length - 1) seed

/-- Embeds `get_best_times(inputs)` (engine.py lines 154–170): slot together with
its label. -/
def getBestTimes (d : Dict) : List (String × String) :=
  let saves := dget d .saves
  let comments := dget d .comments
  let hashtags := dget d .hashtags
  let seed := pyInt (saves * 7 + comments * 13 + hashtags * 3)
  let shuffled := pyShuffle seed.toNat POSTING_TIMES
  let top3 := shuffled.take 3
  top3.enum.map fun p => (p.2, if p.1 = 0 then "BEST" else "GOOD")

-- ── Forecast report (engine.py lines 199–256) ───────────────────────────────

/-- The series `[p.get('predicted_impressions', 0) for p in posts]`
(engine.py 205). -/
def impSeries (posts : List Dict) : List ℚ :=
  posts.map fun p => dget p .predicted_impressions

/-- The series `[p.get('saves', 0) / max(p.get('likes', 1), 1) for p in posts]`
(engine.py 206). -/
def savesRatioSeries (posts : List Dict) : List ℚ :=
  posts.map fun p => dget p .saves / max (dgetD p .likes 1) 1

/-- The series `[p.get('viral_score', 0) for p in posts]` (engine.py 207). -/
def viralSeries (posts : List Dict) : List ℚ :=
  posts.map fun p => dget p .viral_score

/-- Consistency rating (engine.py lines 233–239). The source computes
`cv = math.sqrt(variance) / max(avg_imp, 1)` and compares `cv < 0.25`,
`cv < 0.5`; since `max(avg_imp, 1) ≥ 1 > 0` and `variance ≥ 0`, with √
strictly monotone on nonnegatives these comparisons are exactly the
squared comparisons used here, which keeps the definition inside `ℚ`. -/
def consistencyRating (imps : List ℚ) : String :=
  if 3 ≤ imps.length then
    let avgImp := imps.sum / (imps.length : ℚ)
    let variance := (imps.map fun x => (x - avgImp) ^ 2).sum / (imps.length : ℚ)
    let denom := max avgImp 1
    if variance < (0.25 * denom) ^ 2 then "High"
    else if variance < (0.5 * denom) ^ 2 then "Medium"
    else "Low"
  else "Building"

/-- The consistency classification as claim C7 words it: coefficient of
variation = population stdev divided by the MEAN (no `max(mean, 1)`
guard), thresholds 0.25 and 0.5. Squared comparisons again replace the
square root; they coincide with `stdev/mean < t` whenever `mean > 0`
(as at every input this definition is applied to below). Stated only to
compare against `consistencyRating`. -/
def claimConsistencyCV (imps : List ℚ) : String :=
  let avgImp := imps.sum / (imps.length : ℚ)
  let variance := (imps.map fun x => (x - avgImp) ^ 2).sum / (imps.length : ℚ)
  if variance < (0.25 * avgImp) ^ 2 then "High"
  else if variance < (0.5 * avgImp) ^ 2 then "Medium"
  else "Low"

/-- Next-impression forecast (engine.py lines 216–220). The produced value
is an int in the first branch (`max(int(..), 100)`) and whatever the last
series element was in the (unreachable when a report exists) second
branch, so the model keeps it in `ℚ`. -/
def nextImpForecast (imps : List ℚ) : ℚ :=
  if 2 ≤ imps.length then
    let slope := (imps.getLast?.getD 0 - imps.headD 0) / ((max (imps.length - 1) 1 : ℕ) : ℚ)
    ((max (pyInt (imps.getLast?.getD 0 + slope * 0.5)) 100 : ℤ) : ℚ)
  else imps.getLast?.getD 0

/-- Next-viral forecast (engine.py lines 222–226). -/
def nextViralForecastOf (viralScores : List ℚ) : ℚ :=
  if 2 ≤ viralScores.length then
    let vSlope := (viralScores.getLast?.getD 0 - viralScores.headD 0) /
      ((max (viralScores.length - 1) 1 : ℕ) : ℚ)
    pyRound 1 (min (viralScores.getLast?.getD 0 + vSlope * 0.5) 100)
  else viralScores.getLast?.getD 0

/-- The dict returned by `build_forecast_report` (engine.py lines 241–256),
with the two nested sub-dicts flattened: `savesRatioValues` and
`savesRatioDirection` are the `saves_ratio` entry, `engagementDirection`
and `consistency` the `engagement_velocity` entry. -/
structure ForecastReport where
  postCount : ℕ
  impressionTrend : String
  impSmoothed : List ℚ
  nextImp : ℚ
  nextViral : ℚ
  optHashtags : ℤ
  savesRatioValues : List ℚ
  savesRatioDirection : String
  engagementDirection : String
  consistency : String
deriving DecidableEq

/-- Embeds `build_forecast_report(history, current_inputs, current_imp)`
(engine.py lines 199–256). -/
def buildForecastReport (history : List Dict) (currentInputs : Dict)
    (currentImp : ℤ) : Option ForecastReport :=
  let allPosts := history ++ [withPredictedImpressions currentInputs (currentImp : ℚ)]
  if allPosts.length < 2 then none
  else
    let imps := impSeries allPosts
    let hashtagVals := (allPosts.map fun p => dget p .hashtags).filter fun h => 0 < h
    some
      { postCount := allPosts.length
        impressionTrend := trendDirection imps
        impSmoothed := smooth imps
        nextImp := nextImpForecast imps
        nextViral := nextViralForecastOf (viralSeries allPosts)
        optHashtags :=
          if hashtagVals.isEmpty then 20
          else rhalfEven (hashtagVals.sum / (hashtagVals.length : ℚ))
        savesRatioValues := (savesRatioSeries allPosts).map (pyRound 3)
        savesRatioDirection := trendDirection (savesRatioSeries allPosts)
        engagementDirection :=
          trendDirection (allPosts.map fun p => dget p .likes + dget p .comments)
        consistency := consistencyRating imps }

-- ── Growth levers of generate_ai_strategy (engine.py lines 321–350) ─────────

/-- The growth-lever strings of `generate_ai_strategy`, one constructor per
`levers.append(...)` site (engine.py lines 324–338 in source order, then
the three defaults of lines 341–345). The two hashtag levers carry the
hashtag count interpolated into their f-strings. -/
inductive Lever where
  | saveCta
  | commentQuestion
  | shareableHook
  | hashtagLow (hashtags : ℚ)
  | hashtagHigh (hashtags : ℚ)
  | captionShort
  | captionLong
  | bioOptimise
  | defaultTimes
  | defaultCarousel
  | defaultHook
deriving DecidableEq

/-- The conditionally-appended levers (engine.py lines 321–338), in source
evaluation order. -/
def triggeredLevers (d : Dict) : List Lever :=
  let likes := dget d .likes
  let saves := dget d .saves
  let comments := dget d .comments
  let shares := dget d .shares
  let follows := dget d .follows
  let profileVisits := dget d .profile_visits
  let captionLength := dget d .caption_length
  let hashtags := dget d .hashtags
  let savesPerLike := saves / max likes 1
  let commentsPerLike := comments / max likes 1
  let followConv := if 0 < profileVisits then follows / max profileVisits 1 else 0
  (if savesPerLike < 0.4 then [Lever.saveCta] else []) ++
  (if commentsPerLike < 0.05 then [Lever.commentQuestion] else []) ++
  (if shares < 3 then [Lever.shareableHook] else []) ++
  (if hashtags < 10 then [Lever.hashtagLow hashtags]
   else if 28 < hashtags then [Lever.hashtagHigh hashtags] else []) ++
  (if captionLength < 80 then [Lever.captionShort]
   else if 400 < captionLength then [Lever.captionLong] else []) ++
  (if followConv < 0.08 ∧ 5 < profileVisits then [Lever.bioOptimise] else [])

/-- The three fixed filler levers (engine.py lines 341–345), in order. -/
def leverDefaults : List Lever :=
  [Lever.defaultTimes, Lever.defaultCarousel, Lever.defaultHook]

/-- The final `growth_levers` list (engine.py lines 321–350): conditional
levers, then the `for d in defaults: if len >= 3: break; append` fill
loop, then `levers[:3]`. -/
def growthLevers (d : Dict) : List Lever :=
  (leverDefaults.foldl
    (fun acc lv => if 3 ≤ acc.length then acc else acc ++ [lv])
    (triggeredLevers d)).take 3

-- ── The /api/analyze/ input dict (views.py lines 40–50) ─────────────────────

/-- The `inputs` dict the `analyze` view hands to the engine (views.py
lines 40–50): exactly the nine counters, each `int(body.get(key, 0))`;
in particular no `viral_score` key is ever attached. -/
def analyzeInputs (body : Dict) : Dict :=
  { likes := some ((pyInt (dget body .likes) : ℚ))
    saves := some ((pyInt (dget body .saves) : ℚ))
    comments := some ((pyInt (dget body .comments) : ℚ))
    shares := some ((pyInt (dget body .shares) : ℚ))
    follows := some ((pyInt (dget body .follows) : ℚ))
    profile_visits := some ((pyInt (dget body .profile_visits) : ℚ))
    caption_length := some ((pyInt (dget body .caption_length) : ℚ))
    hashtags := some ((pyInt (dget body .hashtags) : ℚ))
    reposts := some ((pyInt (dget body .reposts) : ℚ)) }

-- ── Concrete test fixtures ──────────────────────────────────────────────────

/-- The input of spec.md §8's strategy test: likes 1000, saves 10,
comments 5, shares 1, hashtags 40, caption_length 500, other counters 0. -/
def strategyInput : Dict :=
  { likes := some 1000, saves := some 10, comments := some 5,
    shares := some 1, follows := some 0, profile_visits := some 0,
    caption_length := some 500, hashtags := some 40, reposts := some 0 }

/-- The report `build_forecast_report` produces for one all-defaults
historical record, an empty current-input dict and current impressions 0. -/
def tinyReport : ForecastReport :=
  { postCount := 2, impressionTrend := "stable", impSmoothed := [0, 0],
    nextImp := 100, nextViral := 0, optHashtags := 20,
    savesRatioValues := [0, 0], savesRatioDirection := "stable",
    engagementDirection := "stable", consistency := "Building" }

-- ── Helper lemmas ───────────────────────────────────────────────────────────

lemma rhalfEven_le (q : ℚ) : (rhalfEven q : ℚ) ≤ q + 1/2 := by
  have h1 := Int.floor_le q
  have h2 := Int.lt_floor_add_one q
  simp only [rhalfEven]
  split_ifs with ha hb hc
  · linarith
  · push_cast; linarith
  · linarith
  · push_cast
    have : q - (⌊q⌋ : ℚ) = 1/2 := le_antisymm (not_lt.mp hb) (not_lt.mp ha)
    linarith

lemma le_rhalfEven (q : ℚ) : q - 1/2 ≤ (rhalfEven q : ℚ) := by
  have h1 := Int.floor_le q
  have h2 := Int.lt_floor_add_one q
  simp only [rhalfEven]
  split_ifs with ha hb hc
  · linarith
  · push_cast; linarith
  · linarith
  · push_cast; linarith

/-- Python `round(q, 1)` cannot cross an integer bound from above. -/
lemma pyRound_one_le (q : ℚ) (n : ℤ) (h : q ≤ (n : ℚ)) : pyRound 1 q ≤ (n : ℚ) := by
  have h1 : (rhalfEven (q * 10) : ℚ) < ((10 * n + 1 : ℤ) : ℚ) := by
    have := rhalfEven_le (q * 10)
    push_cast
    linarith
  have h2 : rhalfEven (q * 10) ≤ 10 * n := by
    have h2a : rhalfEven (q * 10) < 10 * n + 1 := by exact_mod_cast h1
    omega
  have h3 : (rhalfEven (q * 10) : ℚ) ≤ ((10 * n : ℤ) : ℚ) := by exact_mod_cast h2
  have h4 : pyRound 1 q = (rhalfEven (q * 10) : ℚ) / 10 := by
    simp [pyRound]
  rw [h4, div_le_iff₀ (by norm_num : (0:ℚ) < 10)]
  push_cast at h3 ⊢
  linarith

/-- Python `round(q, 1)` cannot cross an integer bound from below. -/
lemma le_pyRound_one (q : ℚ) (n : ℤ) (h : (n : ℚ) ≤ q) : (n : ℚ) ≤ pyRound 1 q := by
  have h1 : ((10 * n - 1 : ℤ) : ℚ) < (rhalfEven (q * 10) : ℚ) := by
    have := le_rhalfEven (q * 10)
    push_cast
    linarith
  have h2 : 10 * n ≤ rhalfEven (q * 10) := by
    have h2a : 10 * n - 1 < rhalfEven (q * 10) := by exact_mod_cast h1
    omega
  have h3 : ((10 * n : ℤ) : ℚ) ≤ (rhalfEven (q * 10) : ℚ) := by exact_mod_cast h2
  have h4 : pyRound 1 q = (rhalfEven (q * 10) : ℚ) / 10 := by
    simp [pyRound]
  rw [h4, le_div_iff₀ (by norm_num : (0:ℚ) < 10)]
  push_cast at h3 ⊢
  linarith

lemma shuffleGo_length (i : ℕ) : ∀ (l : List String) (s : ℕ),
    (shuffleGo l i s).length = l.length := by
  induction i with
  | zero => intro l s; rfl
  | succ i ih =>
    intro l s
    simp only [shuffleGo]
    rw [ih]
    simp [listSwap]

lemma pyShuffle_length (seed : ℕ) (l : List String) :
    (pyShuffle seed l).length = l.length := shuffleGo_length _ _ _

/-- The function `get_best_times` always produces a BEST slot then two
GOOD slots. -/
lemma getBestTimes_shape (d : Dict) :
    ∃ x y z, getBestTimes d = [(x, "BEST"), (y, "GOOD"), (z, "GOOD")] := by
  simp only [getBestTimes]
  have hlen : (pyShuffle (pyInt (dget d .saves * 7 + dget d .comments * 13 +
      dget d .hashtags * 3)).toNat POSTING_TIMES).length = 10 := by
    rw [pyShuffle_length]; rfl
  generalize pyShuffle _ POSTING_TIMES = l at hlen
  match l, hlen with
  | a :: b :: c :: rest, _ =>
    refine ⟨a, b, c, ?_⟩
    simp [List.enum, List.enumFrom]

/-- The default-filling loop (engine.py lines 346–349) brings any lever
list up to length `min (start + number of defaults) 3` at least. -/
lemma fill_length_ge (ds : List Lever) : ∀ (l : List Lever),
    min 3 (l.length + ds.length) ≤
      (ds.foldl (fun acc lv => if 3 ≤ acc.length then acc else acc ++ [lv]) l).length := by
  induction ds with
  | nil => intro l; simp only [List.foldl_nil, List.length_nil, Nat.add_zero]; exact min_le_right 3 l.length
  | cons d ds ih =>
    intro l
    simp only [List.foldl_cons]
    by_cases h3 : 3 ≤ l.length
    · rw [if_pos h3]
      refine le_trans ?_ (ih l)
      omega
    · rw [if_neg h3]
      refine le_trans ?_ (ih (l ++ [d]))
      simp only [List.length_cons, List.length_append, List.length_singleton]
      omega

/-- The list `growth_levers` always has exactly 3 entries. -/
lemma growthLevers_length (d : Dict) : (growthLevers d).length = 3 := by
  simp only [growthLevers, List.length_take]
  have h := fill_length_ge leverDefaults (triggeredLevers d)
  have h2 : leverDefaults.length = 3 := rfl
  rw [h2] at h
  omega

-- ── C1 ──────────────────────────────────────────────────────────────────────

/-- C1 counterexample: on the spec's end-to-end example input with empty
history, `predict_impressions` does NOT return 31257. The spec's own
intermediate value is miscomputed: 2176 × 1.08 × 1.05 = 2467.584, not
2468.6. -/
theorem c1_counterexample : predictImpressions exampleInputs [] ≠ 31257 := by
  norm_num [predictImpressions, baseScore, captionAdjusted, hashtagAdjusted,
    dget, dgetD, lookup, exampleInputs, pyInt]

/-- C1 (amended): on the example metrics {likes 500, saves 250, comments 60,
shares 30, follows 20, profile_visits 100, caption_length 150,
hashtags 15, reposts 2} with empty history, the base score is 2176, the
caption multiplier 1.08 and hashtag multiplier 1.05 both apply giving
2467.584, and `predict_impressions` returns
floor(2467.584 × 12.5 + 400) = 31244. -/
theorem c1_amended :
    baseScore exampleInputs = 2176 ∧
    hashtagAdjusted exampleInputs (captionAdjusted exampleInputs
      (baseScore exampleInputs)) = 2467.584 ∧
    predictImpressions exampleInputs [] = 31244 := by
  refine ⟨?_, ?_, ?_⟩ <;>
    norm_num [predictImpressions, baseScore, captionAdjusted, hashtagAdjusted,
      dget, dgetD, lookup, exampleInputs, pyInt]

/-- When fewer than 3 levers triggered, the fill loop appends the default
levers in order until the list has 3 entries. -/
lemma fill_eq_of_lt (l : List Lever) (h : l.length < 3) :
    leverDefaults.foldl (fun acc lv => if 3 ≤ acc.length then acc else acc ++ [lv]) l
      = l ++ leverDefaults.take (3 - l.length) := by
  have h0 : l.length = 0 ∨ l.length = 1 ∨ l.length = 2 := by omega
  rcases h0 with h0 | h0 | h0 <;>
    simp [leverDefaults, List.foldl_cons, List.foldl_nil, h0,
      List.length_append, List.append_assoc]

-- ── C2 ──────────────────────────────────────────────────────────────────────

/-- C2 counterexample: on the input {likes 1000, saves 10, comments 5,
shares 1, hashtags 40, caption_length 500, other counters 0} the
growth-lever list is NOT [saves CTA, hashtag-reduction,
caption-shortening]: the comment-question rule (0.005 < 0.05) and the
shareable-hook rule (1 < 3) trigger earlier and fill the list first. -/
theorem c2_counterexample :
    growthLevers strategyInput ≠
      [Lever.saveCta, Lever.hashtagHigh 40, Lever.captionLong] := by
  norm_num [growthLevers, triggeredLevers, leverDefaults, dget, dgetD, lookup,
    strategyInput]
  intro h
  simp at h

/-- C2 (amended): on that input the growth-lever list is the saves-CTA
lever, the comment-question lever and the shareable-hook lever — the
first three triggered rules in evaluation order, truncating away the
also-triggered hashtag-reduction and caption-shortening levers — and for
every input the list has length exactly 3 (the spec's min(3, eligible)
with the three always-eligible default fillers counted). -/
theorem c2_amended :
    growthLevers strategyInput =
      [Lever.saveCta, Lever.commentQuestion, Lever.shareableHook] ∧
    ∀ d : Dict, (growthLevers d).length = 3 := by
  constructor
  · norm_num [growthLevers, triggeredLevers, leverDefaults, dget, dgetD, lookup,
      strategyInput]
  · exact growthLevers_length

-- ── C3 ──────────────────────────────────────────────────────────────────────

/-- C3 counterexample: on the odd-length series [0, 10, 0] the code
classifies "improving" (split [0] vs [10, 0]), while the claim's split —
first half receiving the extra element, [0, 10] vs [0] — classifies
"declining". The extra element goes to the SECOND half, not the first. -/
theorem c3_counterexample :
    trendDirection [0, 10, 0] = "improving" ∧
    trendDirectionCeilSplit [0, 10, 0] = "declining" ∧
    "improving" ≠ "declining" :=
  ⟨by norm_num [trendDirection, meanCompare5pct],
   by norm_num [trendDirectionCeilSplit, meanCompare5pct],
   by decide⟩

/-- C3 (amended): for every series of odd length 2k+1 ≥ 3, the split point
is k = ⌊len/2⌋, the FIRST half receives k elements and the SECOND half
receives the extra element (k+1 of them), and `trend_direction`
classifies by comparing the two halves' means against the
5%-of-first-half-mean threshold. -/
theorem c3_amended (v : List ℚ) (k : ℕ) (hlen : v.length = 2 * k + 1)
    (hk : 1 ≤ k) :
    (v.take k).length = k ∧ (v.drop k).length = k + 1 ∧
    trendDirection v = meanCompare5pct (v.take k) (v.drop k) := by
  have hdiv : v.length / 2 = k := by omega
  have h2 : ¬ v.length < 2 := by omega
  refine ⟨?_, ?_, ?_⟩
  · rw [List.length_take]; omega
  · rw [List.length_drop]; omega
  · simp only [trendDirection, hdiv, if_neg h2]

/-- C3 witness: the amended statement at the concrete series [0, 0, 10]
with k = 1. -/
theorem c3_amended_witness :
    (([0, 0, 10] : List ℚ).length = 2 * 1 + 1) ∧ 1 ≤ 1 ∧
    ((([0, 0, 10] : List ℚ).take 1).length = 1 ∧
     (([0, 0, 10] : List ℚ).drop 1).length = 1 + 1 ∧
     trendDirection [0, 0, 10] =
       meanCompare5pct (([0, 0, 10] : List ℚ).take 1)
         (([0, 0, 10] : List ℚ).drop 1)) :=
  ⟨by norm_num, le_refl 1, c3_amended [0, 0, 10] 1 (by norm_num) (le_refl 1)⟩

-- ── C9 ──────────────────────────────────────────────────────────────────────

/-- C9: `generate_ai_strategy`'s growth_levers list has length exactly 3
for every input; when fewer than 3 conditional rules trigger, the fixed
default levers pad it to 3 in their fixed order, so the spec's "≤ 3"
bound is met with equality. -/
theorem c9_levers_always_three (d : Dict) :
    (growthLevers d).length = 3 ∧
    ((triggeredLevers d).length < 3 →
      growthLevers d =
        triggeredLevers d ++ leverDefaults.take (3 - (triggeredLevers d).length)) := by
  refine ⟨growthLevers_length d, fun h => ?_⟩
  rw [growthLevers, fill_eq_of_lt _ h]
  have hlen : (triggeredLevers d ++ leverDefaults.take (3 - (triggeredLevers d).length)).length = 3 := by
    have h3 : leverDefaults.length = 3 := rfl
    rw [List.length_append, List.length_take, h3]
    omega
  exact List.take_of_length_le (le_of_eq hlen)

/-- C9 witness: a calm input triggering no conditional rule, so the list
is exactly the three defaults. -/
def calmInput : Dict :=
  { likes := some 1, saves := some 1, comments := some 1, shares := some 3,
    follows := some 5, profile_visits := some 10, caption_length := some 100,
    hashtags := some 15, reposts := some 0 }

theorem c9_levers_witness :
    (triggeredLevers calmInput).length < 3 ∧
    growthLevers calmInput =
      triggeredLevers calmInput ++
        leverDefaults.take (3 - (triggeredLevers calmInput).length) :=
  ⟨by norm_num [triggeredLevers, dget, dgetD, lookup, calmInput],
   (c9_levers_always_three calmInput).2
     (by norm_num [triggeredLevers, dget, dgetD, lookup, calmInput])⟩

-- ── C4 ──────────────────────────────────────────────────────────────────────

/-- C4: for every metrics input with non-negative counters,
`compute_viral_score` lies in [0, 100], and it is 0 exactly when likes,
saves, comments, shares and follows are all zero (the hashtag floor score
of 3 makes any engaged post score at least 3 before rounding). -/
theorem c4_viral_bounds (d : Dict)
    (hl : 0 ≤ dget d .likes) (hs : 0 ≤ dget d .saves)
    (hc : 0 ≤ dget d .comments) (hsh : 0 ≤ dget d .shares)
    (hf : 0 ≤ dget d .follows) (_hp : 0 ≤ dget d .profile_visits) :
    (0 ≤ computeViralScore d ∧ computeViralScore d ≤ 100) ∧
    (computeViralScore d = 0 ↔
      dget d .likes = 0 ∧ dget d .saves = 0 ∧ dget d .comments = 0 ∧
      dget d .shares = 0 ∧ dget d .follows = 0) := by
  simp only [computeViralScore]
  by_cases h0 : dget d .likes + dget d .saves + dget d .comments +
      dget d .shares + dget d .follows = 0
  · rw [if_pos h0]
    refine ⟨by norm_num, ?_⟩
    constructor
    · intro _
      refine ⟨?_, ?_, ?_, ?_, ?_⟩ <;> linarith
    · intro _
      rfl
  · rw [if_neg h0]
    have key : ∀ a b c e f : ℚ, 0 ≤ a → 0 ≤ b → 0 ≤ c → 0 ≤ e → 3 ≤ f →
        (0 ≤ pyRound 1 (min (a + b + c + e + f) 100) ∧
          pyRound 1 (min (a + b + c + e + f) 100) ≤ 100) ∧
        (pyRound 1 (min (a + b + c + e + f) 100) = 0 ↔
          dget d .likes = 0 ∧ dget d .saves = 0 ∧ dget d .comments = 0 ∧
          dget d .shares = 0 ∧ dget d .follows = 0) := by
      intro a b c e f ha hb hcc he hff
      have h3q : (3 : ℚ) ≤ min (a + b + c + e + f) 100 :=
        le_min (by linarith) (by norm_num)
      have hA : (3 : ℚ) ≤ pyRound 1 (min (a + b + c + e + f) 100) := by
        have := le_pyRound_one (min (a + b + c + e + f) 100) 3 (by push_cast; linarith)
        push_cast at this
        linarith
      have hB : pyRound 1 (min (a + b + c + e + f) 100) ≤ 100 := by
        have hq := min_le_right (a + b + c + e + f) (100 : ℚ)
        have := pyRound_one_le (min (a + b + c + e + f) 100) 100 (by push_cast; linarith)
        push_cast at this
        linarith
      refine ⟨⟨by linarith, hB⟩, iff_of_false (by linarith) ?_⟩
      rintro ⟨e1, e2, e3, e4, e5⟩
      exact h0 (by rw [e1, e2, e3, e4, e5]; norm_num)
    apply key
    · refine le_min ?_ (by norm_num)
      refine mul_nonneg (div_nonneg hs ?_) (by norm_num)
      exact le_trans zero_le_one (le_max_right _ _)
    · refine le_min ?_ (by norm_num)
      refine mul_nonneg (mul_nonneg (div_nonneg hc ?_) (by norm_num)) (by norm_num)
      exact le_trans zero_le_one (le_max_right _ _)
    · refine le_min ?_ (by norm_num)
      refine mul_nonneg (mul_nonneg (div_nonneg hsh ?_) (by norm_num)) (by norm_num)
      exact le_trans zero_le_one (le_max_right _ _)
    · split_ifs with hpv
      · refine le_min ?_ (by norm_num)
        refine mul_nonneg (mul_nonneg (div_nonneg hf ?_) (by norm_num)) (by norm_num)
        exact le_trans zero_le_one (le_max_right _ _)
      · exact le_refl 0
    · split_ifs <;> norm_num

/-- C4 witness: the bounds and the characterisation of 0 at the example
input (whose viral score is 53.4 ≠ 0, with positive counters). -/
theorem c4_viral_bounds_witness :
    (0 ≤ dget exampleInputs .likes) ∧ (0 ≤ dget exampleInputs .saves) ∧
    (0 ≤ dget exampleInputs .comments) ∧ (0 ≤ dget exampleInputs .shares) ∧
    (0 ≤ dget exampleInputs .follows) ∧
    (0 ≤ dget exampleInputs .profile_visits) ∧
    ((0 ≤ computeViralScore exampleInputs ∧
        computeViralScore exampleInputs ≤ 100) ∧
      (computeViralScore exampleInputs = 0 ↔
        dget exampleInputs .likes = 0 ∧ dget exampleInputs .saves = 0 ∧
        dget exampleInputs .comments = 0 ∧ dget exampleInputs .shares = 0 ∧
        dget exampleInputs .follows = 0)) := by
  refine ⟨?_, ?_, ?_, ?_, ?_, ?_,
    c4_viral_bounds exampleInputs ?_ ?_ ?_ ?_ ?_ ?_⟩ <;>
    norm_num [dget, dgetD, lookup, exampleInputs]

-- ── C5 ──────────────────────────────────────────────────────────────────────

/-- C5: every impression figure the engine produces is at least 100:
`predict_impressions` always returns ≥ 100, and any report
`build_forecast_report` produces has next_imp_forecast ≥ 100. -/
theorem c5_impressions_floor (inputs : Dict) (hist : List Dict)
    (h : List Dict) (c : Dict) (i : ℤ) (r : ForecastReport)
    (hr : buildForecastReport h c i = some r) :
    100 ≤ predictImpressions inputs hist ∧ (100 : ℚ) ≤ r.nextImp := by
  constructor
  · simp only [predictImpressions]
    exact le_max_right _ _
  · simp only [buildForecastReport] at hr
    by_cases hlen : (h ++ [withPredictedImpressions c (i : ℚ)]).length < 2
    · rw [if_pos hlen] at hr
      exact absurd hr (by simp)
    · rw [if_neg hlen] at hr
      rw [Option.some.injEq] at hr
      subst hr
      show (100 : ℚ) ≤ nextImpForecast (impSeries (h ++ [withPredictedImpressions c (i : ℚ)]))
      have hge : 2 ≤ (impSeries (h ++ [withPredictedImpressions c (i : ℚ)])).length := by
        simp only [impSeries, List.length_map, List.length_append,
          List.length_singleton] at hlen ⊢
        omega
      have key : ∀ q : ℚ, (100 : ℚ) ≤ ((max (pyInt q) 100 : ℤ) : ℚ) := fun q => by
        exact_mod_cast le_max_right _ _
      rw [nextImpForecast, if_pos hge]
      exact key _

/-- Concrete evaluation: one all-defaults historical record, empty current
inputs and current impressions 0 produce exactly `tinyReport`. -/
lemma tinyReport_eq : buildForecastReport [{}] {} 0 = some tinyReport := by
  norm_num [buildForecastReport, withPredictedImpressions, impSeries,
    savesRatioSeries, viralSeries, smooth, trendDirection, meanCompare5pct,
    nextImpForecast, nextViralForecastOf, consistencyRating, dget, dgetD,
    lookup, pyRound, rhalfEven, pyInt, tinyReport, List.range_succ]

/-- C5 witness: a one-record history makes a concrete report with
next_imp_forecast 100, and the empty input predicts exactly 100. -/
theorem c5_impressions_floor_witness :
    buildForecastReport [{}] {} 0 = some tinyReport ∧
    100 ≤ predictImpressions {} [] ∧ (100 : ℚ) ≤ tinyReport.nextImp :=
  ⟨tinyReport_eq, c5_impressions_floor {} [] [{}] {} 0 tinyReport tinyReport_eq⟩

-- ── C6 ──────────────────────────────────────────────────────────────────────

/-- C6: `get_best_times` always returns exactly 3 entries, the first
labelled "BEST" and the other two "GOOD"; and any two inputs agreeing on
the (saves, comments, hashtags) triple get the identical ordered 3-slot
list (the seed, and hence the whole result, depends only on that
triple). -/
theorem c6_best_times (d1 d2 : Dict)
    (hs : dget d1 .saves = dget d2 .saves)
    (hc : dget d1 .comments = dget d2 .comments)
    (hh : dget d1 .hashtags = dget d2 .hashtags) :
    (getBestTimes d1).length = 3 ∧
    (getBestTimes d1).map Prod.snd = ["BEST", "GOOD", "GOOD"] ∧
    getBestTimes d1 = getBestTimes d2 := by
  obtain ⟨x, y, z, hxyz⟩ := getBestTimes_shape d1
  refine ⟨by rw [hxyz]; rfl, by rw [hxyz]; rfl, ?_⟩
  simp only [getBestTimes, hs, hc, hh]

/-- C6 witness: the labels, arity and self-agreement at the empty input. -/
theorem c6_best_times_witness :
    (getBestTimes {}).length = 3 ∧
    (getBestTimes {}).map Prod.snd = ["BEST", "GOOD", "GOOD"] ∧
    getBestTimes {} = getBestTimes {} :=
  c6_best_times {} {} rfl rfl rfl

-- ── C7 ──────────────────────────────────────────────────────────────────────

/-- C7 counterexample: with two field-less history records and current
impressions 1, the impressions series is [0, 0, 1] (mean 1/3 < 1); the
code divides the stdev by `max(mean, 1) = 1` and reports "Medium", while
the claim's coefficient of variation (stdev / mean = √2 ≈ 1.414 ≥ 0.5)
classifies "Low". -/
theorem c7_counterexample :
    (buildForecastReport [({} : Dict), {}] {} 1).map ForecastReport.consistency
      = some "Medium" ∧
    impSeries ([({} : Dict), {}] ++ [withPredictedImpressions {} ((1 : ℤ) : ℚ)])
      = [0, 0, 1] ∧
    claimConsistencyCV [0, 0, 1] = "Low" ∧
    "Medium" ≠ "Low" := by
  refine ⟨?_, ?_, ?_, by decide⟩
  · norm_num [buildForecastReport, withPredictedImpressions, impSeries,
      savesRatioSeries, viralSeries, smooth, trendDirection, meanCompare5pct,
      nextImpForecast, nextViralForecastOf, consistencyRating, dget, dgetD,
      lookup, pyRound, rhalfEven, pyInt, List.range_succ, max_def, min_def]
  · norm_num [impSeries, withPredictedImpressions, dget, dgetD, lookup]
  · norm_num [claimConsistencyCV, max_def, min_def]

/-- C7 (amended): `build_forecast_report` is absent exactly when the
combined record count (history + synthetic current record) is below 2,
i.e. when the history is empty; with combined count exactly 2 the
consistency is "Building"; with combined count ≥ 3 it classifies the
impressions series by population variance against the squares of
0.25 and 0.5 times `max(mean, 1)` — the stdev is divided by
max(mean, 1), not by the mean itself. -/
theorem c7_amended (h : List Dict) (c : Dict) (i : ℤ) :
    (buildForecastReport h c i = none ↔ h = []) ∧
    (∀ r, buildForecastReport h c i = some r →
      (h.length = 1 → r.consistency = "Building") ∧
      (2 ≤ h.length →
        r.consistency =
          (let imps := impSeries (h ++ [withPredictedImpressions c (i : ℚ)])
           let avgImp := imps.sum / (imps.length : ℚ)
           let variance := (imps.map fun x => (x - avgImp) ^ 2).sum / (imps.length : ℚ)
           if variance < (0.25 * max avgImp 1) ^ 2 then "High"
           else if variance < (0.5 * max avgImp 1) ^ 2 then "Medium"
           else "Low"))) := by
  have hL : (h ++ [withPredictedImpressions c (i : ℚ)]).length = h.length + 1 := by
    simp
  constructor
  · simp only [buildForecastReport]
    constructor
    · intro hn
      by_cases hlen : (h ++ [withPredictedImpressions c (i : ℚ)]).length < 2
      · rw [hL] at hlen
        exact List.eq_nil_of_length_eq_zero (by omega)
      · rw [if_neg hlen] at hn
        exact absurd hn (by simp)
    · intro he
      subst he
      rw [if_pos (by simp)]
  · intro r hr
    simp only [buildForecastReport] at hr
    by_cases hlen : (h ++ [withPredictedImpressions c (i : ℚ)]).length < 2
    · rw [if_pos hlen] at hr
      exact absurd hr (by simp)
    · rw [if_neg hlen] at hr
      rw [Option.some.injEq] at hr
      subst hr
      have hiL : (impSeries (h ++ [withPredictedImpressions c (i : ℚ)])).length
          = h.length + 1 := by
        simp [impSeries]
      constructor
      · intro h1
        show consistencyRating (impSeries (h ++ [withPredictedImpressions c (i : ℚ)]))
          = "Building"
        rw [consistencyRating, if_neg (by omega)]
      · intro h2
        show consistencyRating (impSeries (h ++ [withPredictedImpressions c (i : ℚ)])) = _
        rw [consistencyRating, if_pos (by omega)]

/-- C7 witness: empty history is absent; a single history record (combined
count 2) yields the concrete report with consistency "Building". -/
theorem c7_amended_witness :
    buildForecastReport ([] : List Dict) {} 0 = none ∧
    tinyReport.consistency = "Building" :=
  ⟨(c7_amended [] {} 0).1.mpr rfl,
   ((c7_amended [{}] {} 0).2 tinyReport tinyReport_eq).1 rfl⟩

-- ── C8 ──────────────────────────────────────────────────────────────────────

/-- C8: the engine degrades gracefully — a missing input field is read as
0, `compute_engagement_rate` returns 0.0 when impressions is 0, and
`compute_follow_rate` returns 0.0 when profile_visits is 0. (Totality of
every operation holds by construction of this embedding: every division
the engine performs is either behind one of these zero-return branches
or has a `max(·, 1)` denominator.) -/
theorem c8_graceful (d : Dict) (k : Key) :
    (lookup d k = none → dget d k = 0) ∧
    computeEngagementRate d 0 = 0 ∧
    (dget d .profile_visits = 0 → computeFollowRate d = 0) := by
  refine ⟨fun hm => ?_, ?_, fun hv => ?_⟩
  · simp [dget, dgetD, hm]
  · simp [computeEngagementRate]
  · simp [computeFollowRate, hv]

/-- C8 witness: all three graceful-degradation facts at the empty dict. -/
theorem c8_graceful_witness :
    dget ({} : Dict) .viral_score = 0 ∧
    computeEngagementRate {} 0 = 0 ∧
    computeFollowRate {} = 0 := by
  obtain ⟨h1, h2, h3⟩ := c8_graceful ({} : Dict) .viral_score
  exact ⟨h1 rfl, h2, h3 rfl⟩

-- ── C10 ─────────────────────────────────────────────────────────────────────

/-- Concrete evaluation: the view-built all-zero inputs dict behind one
all-defaults history record also produces exactly `tinyReport`. -/
lemma tinyReport_eq2 :
    buildForecastReport [{}] (analyzeInputs {}) 0 = some tinyReport := by
  norm_num [buildForecastReport, withPredictedImpressions, impSeries,
    savesRatioSeries, viralSeries, smooth, trendDirection, meanCompare5pct,
    nextImpForecast, nextViralForecastOf, consistencyRating, dget, dgetD,
    lookup, pyRound, rhalfEven, pyInt, tinyReport, analyzeInputs, List.range_succ]

/-- C10: the analyze view's inputs dict never carries a viral_score key,
so the synthetic current record contributes 0 to the viral-score series,
and the produced report's next_viral_forecast is extrapolated from the
history's viral scores extended with a final 0 for the current post. -/
theorem c10_current_viral_zero (h : List Dict) (b : Dict) (i : ℤ)
    (r : ForecastReport)
    (hr : buildForecastReport h (analyzeInputs b) i = some r) :
    lookup (analyzeInputs b) .viral_score = none ∧
    viralSeries (h ++ [withPredictedImpressions (analyzeInputs b) (i : ℚ)])
      = (h.map fun p => dget p .viral_score) ++ [0] ∧
    r.nextViral = nextViralForecastOf
      ((h.map fun p => dget p .viral_score) ++ [0]) := by
  have hvs : viralSeries (h ++ [withPredictedImpressions (analyzeInputs b) (i : ℚ)])
      = (h.map fun p => dget p .viral_score) ++ [0] := by
    simp [viralSeries, List.map_append, withPredictedImpressions, dget, dgetD,
      lookup, analyzeInputs]
  refine ⟨rfl, hvs, ?_⟩
  simp only [buildForecastReport] at hr
  by_cases hlen : (h ++ [withPredictedImpressions (analyzeInputs b) (i : ℚ)]).length < 2
  · rw [if_pos hlen] at hr
    exact absurd hr (by simp)
  · rw [if_neg hlen] at hr
    rw [Option.some.injEq] at hr
    subst hr
    show nextViralForecastOf
      (viralSeries (h ++ [withPredictedImpressions (analyzeInputs b) (i : ℚ)])) = _
    rw [hvs]

/-- C10 witness: the statement at one all-defaults history record, the
view-built all-zero inputs and current impressions 0. -/
theorem c10_current_viral_zero_witness :
    lookup (analyzeInputs {}) .viral_score = none ∧
    viralSeries ([({} : Dict)] ++
        [withPredictedImpressions (analyzeInputs {}) ((0 : ℤ) : ℚ)])
      = (([{}] : List Dict).map fun p => dget p .viral_score) ++ [0] ∧
    tinyReport.nextViral = nextViralForecastOf
      ((([{}] : List Dict).map fun p => dget p .viral_score) ++ [0]) :=
  c10_current_viral_zero [{}] {} 0 tinyReport tinyReport_eq2

end Instra
